import Mathlib

/-
Verification of the layered port-scanner engine (mcp_port_scanner).

This file is a shallow embedding, in Lean 4, of the parts of the Python
source that the specification claims talk about:

  * scanner.py      : PortScanner._parse_rustscan_greppable_output,
                      PortScanner._rustscan_ports (helper-failure handling),
                      PortScanner._grab_banners / _grab_single_banner
  * models.py       : the data model (PortInfo, HTTPInfo, DirectoryInfo,
                      ScanResult, ScanConfig) restricted to the fields the
                      claims mention (wall-clock timing fields are elided)
  * http_detector.py: HTTPDetector._identify_http_candidates and
                      HTTPDetector._apply_detection_rule with the six
                      detection rules of _load_detection_rules
  * web_prober.py   : WebProber._is_meaningful_response,
                      WebProber._is_admin_interface and the decision part of
                      WebProber._scan_single_directory
  * service.py      : ScanService.scan_async_with_progress together with
                      ScanService._execute_full_port_scan (the live
                      single-target controller path)

Network I/O, subprocess execution and the progress callback are modelled as
explicit oracle parameters; Python exceptions raised by awaited external
code are modelled with Except.  Python string operations (strip, split,
substring containment, int()) are re-implemented on lists of characters.
-/

namespace PortScannerModel

/-! ## Python string primitives

Character-list re-implementations of the Python string operations the
source uses: str.strip, str.split on a single separator character,
substring containment, str.lower, and int() parsing (sign, digits,
single underscores between digits, surrounding whitespace). -/

/-- pyIsSpace models the ASCII whitespace set recognised by Python
str.strip and int(). -/
def pyIsSpace (c : Char) : Bool :=
  c = ' ' || c = '\t' || c = '\n' || c = '\r' || c = '\x0b' || c = '\x0c'

/-- pyStrip models Python str.strip(): drop whitespace from both ends. -/
def pyStrip (s : List Char) : List Char :=
  ((s.dropWhile pyIsSpace).reverse.dropWhile pyIsSpace).reverse

/-- splitOnChar models Python str.split(sep) for a one-character separator:
the list of (possibly empty) chunks between occurrences of the separator. -/
def splitOnChar (sep : Char) : List Char → List (List Char)
  | [] => [[]]
  | c :: rest =>
    let parts := splitOnChar sep rest
    if c = sep then [] :: parts
    else
      match parts with
      | [] => [[c]]
      | p :: ps => (c :: p) :: ps

/-- startsWithChars tests whether the second list begins with the first. -/
def startsWithChars : List Char → List Char → Bool
  | [], _ => true
  | _ :: _, [] => false
  | p :: ps, c :: cs => p = c && startsWithChars ps cs

/-- containsChars models the Python substring test (pat in s). -/
def containsChars (pat : List Char) : List Char → Bool
  | [] => pat.isEmpty
  | c :: rest => startsWithChars pat (c :: rest) || containsChars pat rest

/-- lowerChars models Python str.lower() (ASCII case folding). -/
def lowerChars (s : List Char) : List Char :=
  s.map Char.toLower

/-- pyDigitsValid accepts the digit part of a Python int() literal:
a non-empty digit sequence in which single underscores may appear
between two digits. -/
def pyDigitsValid : List Char → Bool
  | [] => false
  | [c] => c.isDigit
  | c :: '_' :: rest => c.isDigit && pyDigitsValid rest
  | c :: rest => c.isDigit && pyDigitsValid rest

/-- digitsToNat folds a digit sequence (underscores removed) to its value. -/
def digitsToNat (s : List Char) : Nat :=
  s.foldl (fun acc c => 10 * acc + (c.toNat - '0'.toNat)) 0

/-- pyParseInt models Python int(str): strip surrounding whitespace, accept
an optional sign followed by digits (with single underscores between
digits), and reject everything else with a ValueError (none). -/
def pyParseInt (s : List Char) : Option Int :=
  let t := pyStrip s
  match t with
  | '-' :: rest =>
    if pyDigitsValid rest then some (-(digitsToNat (rest.filter (· ≠ '_')) : Int)) else none
  | '+' :: rest =>
    if pyDigitsValid rest then some ((digitsToNat (rest.filter (· ≠ '_')) : Int)) else none
  | rest =>
    if pyDigitsValid rest then some ((digitsToNat (rest.filter (· ≠ '_')) : Int)) else none

/-! ## sorted(list(set(...)))

Python sorted(list(set(ports))) on a list of ints yields the strictly
ascending duplicate-free enumeration of the elements of the list.  insSorted
inserts one element into a strictly ascending list, skipping it when it is
already present. -/

/-- insSorted inserts an integer into a strictly ascending list, keeping
the list strictly ascending and duplicate-free. -/
def insSorted (n : Int) : List Int → List Int
  | [] => [n]
  | m :: rest =>
    if n < m then n :: m :: rest
    else if n = m then m :: rest
    else m :: insSorted n rest

/-- pySortedSet models Python sorted(list(set(l))) for integer lists. -/
def pySortedSet (l : List Int) : List Int :=
  l.foldr insSorted []

theorem mem_insSorted {n x : Int} {l : List Int} :
    x ∈ insSorted n l ↔ x = n ∨ x ∈ l := by
  induction l with
  | nil => simp [insSorted]
  | cons m rest ih =>
    by_cases h1 : n < m
    · simp [insSorted, h1, List.mem_cons]
    · by_cases h2 : n = m
      · subst h2
        simp [insSorted, h1, List.mem_cons]
      · simp [insSorted, h1, h2, List.mem_cons, ih]
        tauto

theorem insSorted_sorted (n : Int) (l : List Int)
    (h : l.Sorted (· < ·)) : (insSorted n l).Sorted (· < ·) := by
  induction l with
  | nil => simp [insSorted]
  | cons m rest ih =>
    have hrest : rest.Sorted (· < ·) := (List.sorted_cons.mp h).2
    have hm : ∀ x ∈ rest, m < x := (List.sorted_cons.mp h).1
    by_cases h1 : n < m
    · rw [insSorted, if_pos h1]
      refine List.sorted_cons.mpr ⟨?_, h⟩
      intro x hx
      rcases List.mem_cons.mp hx with rfl | hx
      · exact h1
      · exact lt_trans h1 (hm x hx)
    · by_cases h2 : n = m
      · rw [insSorted, if_neg h1, if_pos h2]
        exact h
      · have hmn : m < n :=
          lt_of_le_of_ne (not_lt.mp h1) (fun hh => h2 hh.symm)
        rw [insSorted, if_neg h1, if_neg h2]
        refine List.sorted_cons.mpr ⟨?_, ih hrest⟩
        intro x hx
        rcases mem_insSorted.mp hx with rfl | hx
        · exact hmn
        · exact hm x hx

theorem pySortedSet_sorted (l : List Int) :
    (pySortedSet l).Sorted (· < ·) := by
  induction l with
  | nil => simp [pySortedSet]
  | cons a rest ih => exact insSorted_sorted a _ ih

theorem pySortedSet_nodup (l : List Int) : (pySortedSet l).Nodup :=
  (pySortedSet_sorted l).nodup

/-! ## scanner.py: PortScanner._parse_rustscan_greppable_output

The greppable output parser.  Per line (after stripping): the line is
considered only when it contains the substring "->" together with at least
one opening and one closing square bracket; the text between the first
opening bracket and the first closing bracket after it is split on commas;
each comma entry is stripped, empty entries are passed over, and entries
are converted with int().  A ValueError aborts the rest of that line but
keeps the entries already collected (the try/except wraps the whole entry
loop of the line).  Finally sorted(list(set(ports))). -/

/-- parseEntries models the inner entry loop of
_parse_rustscan_greppable_output: strip each comma-separated entry, skip
empty entries, parse with int(); a failing parse (ValueError) aborts the
rest of the line, keeping what was already appended. -/
def parseEntries : List (List Char) → List Int
  | [] => []
  | e :: rest =>
    if (pyStrip e).isEmpty then parseEntries rest
    else
      match pyParseInt (pyStrip e) with
      | some n => n :: parseEntries rest
      | none => []

/-- lineShape is the per-line guard of _parse_rustscan_greppable_output:
the stripped line must contain the substring "->", an opening bracket and
a closing bracket. -/
def lineShape (l : List Char) : Bool :=
  containsChars ['-', '>'] l && l.contains '[' && l.contains ']'

/-- parseLine models one iteration of the line loop of
_parse_rustscan_greppable_output: strip the line, test lineShape, extract
the text between the first opening bracket and the next closing bracket
(split on the opening bracket, take index 1, split that on the closing
bracket, take index 0), and run parseEntries on its comma chunks. -/
def parseLine (line : List Char) : List Int :=
  let l := pyStrip line
  if lineShape l then
    let afterBracket := (splitOnChar '[' l).getD 1 []
    let bracketContent := (splitOnChar ']' afterBracket).getD 0 []
    parseEntries (splitOnChar ',' bracketContent)
  else []

/-- parseRustscanGreppableOutput models
PortScanner._parse_rustscan_greppable_output: strip the whole output,
split into lines, collect ports line by line, then de-duplicate and sort. -/
def parseRustscanGreppableOutput (output : List Char) : List Int :=
  pySortedSet ((splitOnChar '\n' (pyStrip output)).map parseLine).flatten

/-! ## models.py: the data model

PortInfo, HTTPInfo, DirectoryInfo, ScanStatus, ScanResult and ScanConfig,
restricted to the fields the claims mention.  Wall-clock fields
(start_time, end_time, scan_duration, response_time) and the derived
counters are elided: no claim refers to them.  Pydantic field validation
of PortInfo (port between 1 and 65535) is modelled where the control flow
depends on it (grabSingleBanner). -/

/-- PortInfoM models models.PortInfo (timing-free fields). -/
structure PortInfoM where
  port : Int
  protocol : String := "tcp"
  state : String
  service : Option String := none
  version : Option String := none
  banner : Option String := none
  confidence : ℚ := 0
  deriving DecidableEq, Repr

/-- HTTPInfoM models models.HTTPInfo (headers as an association list,
response_time elided). -/
structure HTTPInfoM where
  url : String
  statusCode : Option Int := none
  title : Option String := none
  server : Option String := none
  headers : List (String × String) := []
  technologies : List String := []
  isHttps : Bool := false
  redirectUrl : Option String := none
  contentLength : Option Int := none
  deriving DecidableEq, Repr

/-- DirectoryInfoM models models.DirectoryInfo (response_time elided). -/
structure DirectoryInfoM where
  path : String
  statusCode : Int
  contentLength : Option Int := none
  contentType : Option String := none
  title : Option String := none
  is_admin : Bool := false
  deriving DecidableEq, Repr

/-- ScanStatusM models models.ScanStatus. -/
inductive ScanStatusM where
  | pending
  | running
  | completed
  | failed
  deriving DecidableEq, Repr

/-- ScanResultM models models.ScanResult: the aggregator constructed at the
start of ScanService.scan_async_with_progress.  The pydantic defaults give
status pending, no error message and empty layer results.  targetPorts is
the ports field of the embedded ScanTarget. -/
structure ScanResultM where
  scanId : String
  targetIp : String
  targetPorts : Option (List Int) := none
  status : ScanStatusM := .pending
  openPorts : List PortInfoM := []
  httpServices : List HTTPInfoM := []
  adminDirectories : List DirectoryInfoM := []
  errorMessage : Option String := none
  deriving DecidableEq, Repr

/-- ScanConfigM models the fields of models.ScanConfig that the embedded
code reads. -/
structure ScanConfigM where
  smartScanEnabled : Bool := true
  smartScanThreshold : Int := 3
  webPorts : List Int := [80, 443, 8080, 8443, 3000, 4000, 5000, 8000, 8081, 8082, 9000, 9090]
  deriving DecidableEq, Repr

/-! ## scanner.py: helper failure handling and banner grabbing -/

/-- HelperOutcome models the three ways the RustScan subprocess invocation
inside PortScanner._rustscan_ports can turn out: the binary is missing
(FileNotFoundError from create_subprocess_exec), the process ran and
produced an exit code and stdout text, or some other exception was raised
while invoking it. -/
inductive HelperOutcome where
  | notFound
  | ran (returncode : Int) (stdout : List Char)
  | raisedOther (msg : String)
  deriving DecidableEq, Repr

/-- rustscanPorts models PortScanner._rustscan_ports: when the helper ran
and exited non-zero the function logs and returns the empty list; when it
ran and exited zero its stdout is parsed; FileNotFoundError and any other
exception fall back to the in-process socket scan, whose result is the
socketScan argument (PortScanner._socket_scan_ports is itself wrapped in a
try/except returning a list, so it is modelled as a plain list). -/
def rustscanPorts (outcome : HelperOutcome) (socketScan : List Int) : List Int :=
  match outcome with
  | .ran rc out => if rc ≠ 0 then [] else parseRustscanGreppableOutput out
  | .notFound => socketScan
  | .raisedOther _ => socketScan

/-- grabSingleBanner models PortScanner._grab_single_banner for port p with
the banner read modelled by the bannerEnv oracle (PortScanner._get_banner
catches every exception and returns an optional string).  The service
field is always "unknown": _grab_single_banner reads key "service" from
the dict returned by _identify_service, which only ever sets "name", and
likewise confidence is always the 0.5 default.  Version extraction from
banner regexes is elided (no claim refers to it).  Constructing
models.PortInfo raises a pydantic ValidationError when the port is outside
1..65535, which is the error case here. -/
def grabSingleBanner (bannerEnv : Int → Option String) (p : Int) :
    Except String PortInfoM :=
  if 1 ≤ p ∧ p ≤ 65535 then
    .ok { port := p, state := "open", protocol := "tcp",
          service := some "unknown", banner := bannerEnv p,
          confidence := 1/2 }
  else .error "ValidationError"

/-- basicPortInfo models the minimal PortInfo built in the exception branch
of PortScanner._grab_banners (port-table service lookup elided to
"unknown"-or-named; no claim depends on the table, so the service value is
taken from an oracle-free default of none to keep the record faithful to
the constructor call, which passes only port, state, protocol, service). -/
def basicPortInfo (p : Int) (svc : String) : PortInfoM :=
  { port := p, state := "open", protocol := "tcp", service := some svc }

/-- identifyServiceByPort models PortScanner._identify_service_by_port
restricted to what the claims need: the port-to-service table is a total
lookup; its exact contents are irrelevant to every claim, so it is kept
abstract as a parameter where used. -/
def identifyServiceByPort (_p : Int) : String := "unknown"

/-- grabBannersAux walks the banner tasks in completion order.  order lists
the task indices in the order asyncio.as_completed yields them; i is the
completion position.  On success the resulting PortInfo carries the port
of the completed task; on failure the except branch of
PortScanner._grab_banners builds a basic PortInfo from ports[i], indexing
by completion position rather than task index. -/
def grabBannersAux (bannerEnv : Int → Option String) (ports : List Int) :
    List Nat → Nat → List PortInfoM
  | [], _ => []
  | ti :: rest, i =>
    let p := ports.getD ti 0
    (match grabSingleBanner bannerEnv p with
     | .ok info => info
     | .error _ => basicPortInfo (ports.getD i 0) (identifyServiceByPort (ports.getD i 0))) ::
      grabBannersAux bannerEnv ports rest (i + 1)

/-- grabBanners models PortScanner._grab_banners: results are appended in
completion order (asyncio.as_completed); order is the completion schedule,
a permutation of the task indices.  No sort is applied afterwards. -/
def grabBanners (bannerEnv : Int → Option String) (ports : List Int)
    (order : List Nat) : List PortInfoM :=
  grabBannersAux bannerEnv ports order 0

/-! ## http_detector.py: candidate selection

HTTPDetector._load_detection_rules, _identify_http_candidates and
_apply_detection_rule.  Banner regular-expression matching (Python
re.search with IGNORECASE) is kept abstract as an oracle parameter
reMatch : pattern source string → banner → Bool; the code consults it
only when the banner is truthy (present and non-empty), which the
embedding reproduces, and no claim settled here depends on the matcher
itself.  Confidence scores are exact rationals; every comparison the
claims touch is decided identically for Python floats (sums of at most a
few tenths, compared against 0.3). -/

/-- HTTPDetectionRuleM models models.HTTPDetectionRule. -/
structure HTTPDetectionRuleM where
  name : String
  bannerPatterns : List String
  portHints : List Int := []
  confidenceBoost : ℚ := 1/10
  priority : Int := 1
  deriving DecidableEq, Repr

/-- detectionRules models HTTPDetector._load_detection_rules, in the order
produced by the stable sort on priority (the four priority-1 rules in
declaration order, then the two priority-2 rules in declaration order). -/
def detectionRules : List HTTPDetectionRuleM :=
  [ { name := "Standard HTTP Response",
      bannerPatterns := ["HTTP/\\d\\.\\d", "200 OK", "404 Not Found", "500 Internal Server Error"],
      portHints := [80, 443, 8080, 8443], confidenceBoost := 3/10, priority := 1 },
    { name := "Server Header",
      bannerPatterns := ["Server:\\s*(nginx|apache|iis|tomcat|jetty)", "Server:\\s*Microsoft-IIS", "Server:\\s*Apache", "Server:\\s*nginx"],
      portHints := [], confidenceBoost := 4/10, priority := 1 },
    { name := "Web Application Servers",
      bannerPatterns := ["Jetty", "Tomcat", "WebLogic", "WebSphere", "JBoss", "Undertow"],
      portHints := [8080, 8443, 9080, 9443], confidenceBoost := 3/10, priority := 1 },
    { name := "Non-Standard HTTP Ports",
      bannerPatterns := ["HTTP/\\d\\.\\d"],
      portHints := [3000, 4000, 5000, 8000, 8081, 8082, 9000, 9090], confidenceBoost := 4/10, priority := 1 },
    { name := "Content-Type Header",
      bannerPatterns := ["Content-Type:\\s*text/html", "Content-Type:\\s*application/json", "Content-Type:\\s*text/plain"],
      portHints := [], confidenceBoost := 2/10, priority := 2 },
    { name := "Reverse Proxy",
      bannerPatterns := ["Via:\\s*", "X-Forwarded-For:", "X-Real-IP:", "CloudFlare", "X-Served-By:"],
      portHints := [80, 443], confidenceBoost := 2/10, priority := 2 } ]

/-- bannerTruthy models the Python truthiness test on the optional banner
string (None and the empty string are falsy). -/
def bannerTruthy : Option String → Bool
  | none => false
  | some s => !s.isEmpty

/-- applyDetectionRule models HTTPDetector._apply_detection_rule: 0.1 when
the port appears in the port hints of the rule, plus the confidence
boost of the rule when the banner is truthy and any of its patterns matches
(the loop breaks after the first matching pattern, so the boost is added
at most once). -/
def applyDetectionRule (reMatch : String → String → Bool)
    (p : PortInfoM) (r : HTTPDetectionRuleM) : ℚ :=
  (if p.port ∈ r.portHints then 1/10 else 0) +
    (match p.banner with
     | none => 0
     | some b =>
       if b.isEmpty then 0
       else if r.bannerPatterns.any (fun pat => reMatch pat b) then r.confidenceBoost
       else 0)

/-- httpServiceLabels is the service list of
HTTPDetector._identify_http_candidates line 168. -/
def httpServiceLabels : List (Option String) :=
  [some "http", some "https", some "http-alt", some "https-alt"]

/-- candidateScore is the confidence_score accumulated for one port in
HTTPDetector._identify_http_candidates: 0.5 when the service label is
http-ish, plus the positive score of each rule. -/
def candidateScore (reMatch : String → String → Bool) (p : PortInfoM) : ℚ :=
  (if p.service ∈ httpServiceLabels then 1/2 else 0) +
    detectionRules.foldl
      (fun acc r =>
        let rs := applyDetectionRule reMatch p r
        if rs > 0 then acc + rs else acc) 0

/-- identifyHttpCandidates models HTTPDetector._identify_http_candidates:
ports whose combined score reaches 0.3 are kept, with their confidence
field overwritten by min(score, 1.0). -/
def identifyHttpCandidates (reMatch : String → String → Bool) :
    List PortInfoM → List PortInfoM
  | [] => []
  | p :: rest =>
    if candidateScore reMatch p ≥ 3/10 then
      { p with confidence := min (candidateScore reMatch p) 1 } ::
        identifyHttpCandidates reMatch rest
    else identifyHttpCandidates reMatch rest

/-! ## web_prober.py: meaningful-response filter and admin classification

WebProber._is_meaningful_response, WebProber._is_admin_interface (with the
two form-element regular expressions implemented as backtracking matchers
over lowercased character lists) and the response-handling part of
WebProber._scan_single_directory.  Title extraction is elided (no claim
refers to titles), which is recorded by leaving the title field none. -/

/-- quoteChar is the single-quote character, written via its code point. -/
def quoteChar : Char := Char.ofNat 39

/-- startsTypePassword matches the regex fragment
type=["#34;]password["#34;] (with either quote character on either side)
at the head of the list. -/
def startsTypePassword (rest : List Char) : Bool :=
  startsWithChars "type=".toList rest &&
    (match rest.drop 5 with
     | q :: r2 =>
       (q = '"' || q = quoteChar) && startsWithChars "password".toList r2 &&
         (match r2.drop 8 with
          | q2 :: _ => q2 = '"' || q2 = quoteChar
          | [] => false)
     | [] => false)

/-- inputPwTail consumes zero or more non-closing-bracket characters and
then requires startsTypePassword, mirroring the [^>]* gap of the
input-password regex with backtracking. -/
def inputPwTail : List Char → Bool
  | [] => false
  | c :: cs => startsTypePassword (c :: cs) || (c ≠ '>' && inputPwTail cs)

/-- matchInputPassword models
re.search applied to the pattern for a password input element
on the lowercased content. -/
def matchInputPassword : List Char → Bool
  | [] => false
  | c :: cs =>
    (startsWithChars "<input".toList (c :: cs) && inputPwTail ((c :: cs).drop 6)) ||
      matchInputPassword cs

/-- loginTail consumes zero or more non-closing-bracket characters and then
requires the literal login. -/
def loginTail : List Char → Bool
  | [] => false
  | c :: cs => startsWithChars "login".toList (c :: cs) || (c ≠ '>' && loginTail cs)

/-- actionTail consumes zero or more non-closing-bracket characters and
then requires the literal action followed (after a further gap) by login. -/
def actionTail : List Char → Bool
  | [] => false
  | c :: cs =>
    (startsWithChars "action".toList (c :: cs) && loginTail ((c :: cs).drop 6)) ||
      (c ≠ '>' && actionTail cs)

/-- matchFormActionLogin models re.search applied to the pattern for a
form element whose action mentions login, on the lowercased content. -/
def matchFormActionLogin : List Char → Bool
  | [] => false
  | c :: cs =>
    (startsWithChars "<form".toList (c :: cs) && actionTail ((c :: cs).drop 5)) ||
      matchFormActionLogin cs

/-- adminPathKeywords is the admin_path_keywords list of
WebProber._is_admin_interface. -/
def adminPathKeywords : List String :=
  ["admin", "manage", "control", "panel", "dashboard", "console", "backend", "login"]

/-- adminContentKeywords is the admin_content_keywords list of
WebProber._is_admin_interface. -/
def adminContentKeywords : List String :=
  ["administration", "admin panel", "control panel", "management console",
   "dashboard", "login", "username", "password", "sign in", "log in",
   "administrative", "manager", "control"]

/-- pathHasAdminKeyword is the first loop of WebProber._is_admin_interface:
some admin path keyword occurs in the lowercased path. -/
def pathHasAdminKeyword (path : String) : Bool :=
  adminPathKeywords.any (fun kw => containsChars kw.toList (lowerChars path.toList))

/-- isAdminInterface models WebProber._is_admin_interface. -/
def isAdminInterface (content path : String) : Bool :=
  let contentLower := lowerChars content.toList
  if pathHasAdminKeyword path then true
  else if adminContentKeywords.any (fun kw => containsChars kw.toList contentLower) then true
  else if matchInputPassword contentLower then true
  else if matchFormActionLogin contentLower then true
  else false

/-- meaningfulCodes is the meaningful_codes set of
WebProber._is_meaningful_response. -/
def meaningfulCodes : List Int := [200, 201, 301, 302, 401, 403, 500, 503]

/-- isMeaningfulResponse models WebProber._is_meaningful_response: the
status code must be meaningful; then, when the Content-Length header is
truthy (present and non-empty) and parses with int(), its value must lie
in 50..1048576; an unparseable value passes (the ValueError is swallowed). -/
def isMeaningfulResponse (status : Int) (cl : Option (List Char)) : Bool :=
  if status ∉ meaningfulCodes then false
  else
    match cl with
    | none => true
    | some s =>
      if s.isEmpty then true
      else
        match pyParseInt s with
        | some v => if v < 50 ∨ v > 1048576 then false else true
        | none => true

/-- DirResponse models the observable part of an httpx response to a
directory probe; body = none models response.text raising when the body is
examined. -/
structure DirResponse where
  statusCode : Int
  contentLengthHeader : Option (List Char) := none
  contentTypeHeader : Option String := none
  body : Option String := none
  deriving DecidableEq, Repr

/-- scanSingleDirectory models the response handling of
WebProber._scan_single_directory: a request failure (resp = none,
timeouts and connection errors are swallowed) or a non-meaningful
response yields nothing; otherwise a DirectoryInfo is built with the
parsed Content-Length and the Content-Type header, and only for
status 200 with a readable body are the title and the admin flag
computed (a body decode failure keeps the defaults). -/
def scanSingleDirectory (path : String) (resp : Option DirResponse) :
    Option DirectoryInfoM :=
  match resp with
  | none => none
  | some r =>
    if isMeaningfulResponse r.statusCode r.contentLengthHeader then
      let d0 : DirectoryInfoM :=
        { path := path, statusCode := r.statusCode,
          contentLength := r.contentLengthHeader.bind pyParseInt,
          contentType := r.contentTypeHeader }
      if r.statusCode = 200 then
        match r.body with
        | some content => some { d0 with is_admin := isAdminInterface content path }
        | none => some d0
      else some d0
    else none

/-! ## service.py: ScanService.scan_async_with_progress

The live single-target controller path (used by scan_sync, scan_async,
batch scans, the CLI and the CLI adapter).  The three layer components and
the optional progress callback are oracle parameters: scan_target,
detect_http_services and probe_web_services all swallow their internal
errors and return lists, while the caller-supplied progress callback is
arbitrary code and may raise — which the surrounding try/except of
scan_async_with_progress then catches, returning the partially filled
result.  Progress-message text is elided; the callback oracle receives the
stage name of each call site.  Each embedded step returns the result so
far, the flag recording whether _execute_full_port_scan invoked the
full-range sweep, and whether an exception aborted the remainder of the
try block. -/

/-- ScanOracles packages the awaited collaborators of
ScanService.scan_async_with_progress.  scanTarget is
PortScanner.scan_target as a function of the ScanTarget ports field. -/
structure ScanOracles where
  scanTarget : Option (List Int) → List PortInfoM
  detectHttp : List PortInfoM → List HTTPInfoM
  probeWeb : List HTTPInfoM → List DirectoryInfoM
  progressCb : Option (String → Except String Unit) := none

/-- callCb models the guarded callback invocation
(if progress_callback: await progress_callback(...)). -/
def callCb (cb : Option (String → Except String Unit)) (stage : String) :
    Except String Unit :=
  match cb with
  | none => .ok ()
  | some f => f stage

/-- fullPortRange is list(range(1, 65536)), the port list of the full
sweep target built in ScanService._execute_full_port_scan. -/
def fullPortRange : List Int :=
  (List.range 65535).map (fun i => (i : Int) + 1)

/-- portsFalsy models the Python truthiness test (if not ports:) on the
optional explicit port list: None and the empty list are falsy. -/
def portsFalsy : Option (List Int) → Bool
  | none => true
  | some [] => true
  | some (_ :: _) => false

/-- defaultLayers is the default layer list applied by
scan_async_with_progress when the caller passes layers=None. -/
def defaultLayers : List String := ["port_scan", "http_detection", "web_probe"]

/-- executeFullPortScan models ScanService._execute_full_port_scan as
called from scan_async_with_progress with the progress callback of the caller:
two callback messages precede the sweep and one follows it; the returned
triple is (result, whether the full sweep ran, whether a callback raised).
Only after a fully successful call does the caller overwrite open_ports
with the sweep result (line 180). -/
def executeFullPortScan (o : ScanOracles) (r : ScanResultM) :
    ScanResultM × Bool × Bool :=
  match callCb o.progressCb "全端口扫描" with
  | .error _ => (r, false, true)
  | .ok _ =>
    match callCb o.progressCb "全端口扫描" with
    | .error _ => (r, false, true)
    | .ok _ =>
      let fullPorts := o.scanTarget (some fullPortRange)
      match callCb o.progressCb "全端口扫描" with
      | .error _ => (r, true, true)
      | .ok _ => ({ r with openPorts := fullPorts }, true, false)

/-- portScanLayer models the port_scan stage of scan_async_with_progress
(lines 161-186): the preset scan, then the smart decision — taken only
when the ports argument is falsy and gated solely on the open-port count
against smart_scan_threshold; smart_scan_enabled is not consulted on this
path. -/
def portScanLayer (cfg : ScanConfigM) (ports : Option (List Int))
    (layers : List String) (o : ScanOracles) (r0 : ScanResultM) :
    ScanResultM × Bool × Bool :=
  if "port_scan" ∈ layers then
    match callCb o.progressCb "预设端口扫描" with
    | .error _ => (r0, false, true)
    | .ok _ =>
      let portInfos := o.scanTarget ports
      let r1 := { r0 with openPorts := portInfos }
      if portsFalsy ports then
        if (portInfos.length : Int) < cfg.smartScanThreshold then
          match callCb o.progressCb "智能决策" with
          | .error _ => (r1, false, true)
          | .ok _ => executeFullPortScan o r1
        else
          match callCb o.progressCb "智能决策" with
          | .error _ => (r1, false, true)
          | .ok _ => (r1, false, false)
      else (r1, false, false)
  else (r0, false, false)

/-- webProbeLayer models the web_probe stage (lines 200-208). -/
def webProbeLayer (layers : List String) (o : ScanOracles)
    (r : ScanResultM) : ScanResultM :=
  if "web_probe" ∈ layers ∧ r.httpServices ≠ [] then
    match callCb o.progressCb "Web探测" with
    | .error _ => r
    | .ok _ => { r with adminDirectories := o.probeWeb r.httpServices }
  else r

/-- httpDetectionLayer models the http_detection stage (lines 189-197)
followed by the web_probe stage; a raising callback aborts both, and the
outer except then returns the result unchanged, which coincides with
returning it here. -/
def httpDetectionLayer (layers : List String) (o : ScanOracles)
    (r : ScanResultM) : ScanResultM :=
  if "http_detection" ∈ layers ∧ r.openPorts ≠ [] then
    match callCb o.progressCb "HTTP服务检测" with
    | .error _ => r
    | .ok _ =>
      webProbeLayer layers o { r with httpServices := o.detectHttp r.openPorts }
  else webProbeLayer layers o r

/-- initScanResult is the ScanResult constructed at the top of
scan_async_with_progress (pydantic defaults: status pending, empty layer
lists, no error message). -/
def initScanResult (ip : String) (ports : Option (List Int))
    (scanId : String) : ScanResultM :=
  { scanId := scanId, targetIp := ip, targetPorts := ports }

/-- scanAsyncWithProgress models ScanService.scan_async_with_progress for
one target: the try block runs the three layers in order; any exception
(realisable through the caller-supplied progress callback) is caught at
the per-target boundary and the result accumulated so far is returned.
Neither branch calls mark_completed or mark_failed.  The second component
records whether the full 1-65535 sweep was executed. -/
def scanAsyncWithProgress (cfg : ScanConfigM) (ip : String)
    (ports : Option (List Int)) (layers : List String) (o : ScanOracles)
    (scanId : String) : ScanResultM × Bool :=
  match portScanLayer cfg ports layers o (initScanResult ip ports scanId) with
  | (r, ran, true) => (r, ran)
  | (r, ran, false) => (httpDetectionLayer layers o r, ran)

/-! ## Structural lemmas about the controller stages -/

theorem executeFullPortScan_preserves (o : ScanOracles) (r : ScanResultM) :
    (executeFullPortScan o r).1.status = r.status ∧
    (executeFullPortScan o r).1.errorMessage = r.errorMessage := by
  unfold executeFullPortScan
  cases callCb o.progressCb "全端口扫描" <;> simp

theorem portScanLayer_preserves (cfg : ScanConfigM) (ports : Option (List Int))
    (layers : List String) (o : ScanOracles) (r0 : ScanResultM) :
    (portScanLayer cfg ports layers o r0).1.status = r0.status ∧
    (portScanLayer cfg ports layers o r0).1.errorMessage = r0.errorMessage := by
  unfold portScanLayer
  split
  · cases callCb o.progressCb "预设端口扫描" with
    | error e => exact ⟨rfl, rfl⟩
    | ok u =>
      dsimp only
      split
      · split
        · cases callCb o.progressCb "智能决策" with
          | error e => exact ⟨rfl, rfl⟩
          | ok v =>
            dsimp only
            simpa using executeFullPortScan_preserves o _
        · cases callCb o.progressCb "智能决策" with
          | error e => exact ⟨rfl, rfl⟩
          | ok v => exact ⟨rfl, rfl⟩
      · exact ⟨rfl, rfl⟩
  · exact ⟨rfl, rfl⟩

theorem webProbeLayer_preserves (layers : List String) (o : ScanOracles)
    (r : ScanResultM) :
    (webProbeLayer layers o r).status = r.status ∧
    (webProbeLayer layers o r).errorMessage = r.errorMessage ∧
    (webProbeLayer layers o r).openPorts = r.openPorts ∧
    (webProbeLayer layers o r).httpServices = r.httpServices := by
  unfold webProbeLayer
  split
  · cases callCb o.progressCb "Web探测" <;> simp
  · simp

theorem httpDetectionLayer_preserves (layers : List String) (o : ScanOracles)
    (r : ScanResultM) :
    (httpDetectionLayer layers o r).status = r.status ∧
    (httpDetectionLayer layers o r).errorMessage = r.errorMessage ∧
    (httpDetectionLayer layers o r).openPorts = r.openPorts := by
  unfold httpDetectionLayer
  split
  · cases callCb o.progressCb "HTTP服务检测" with
    | error e => simp
    | ok u =>
      have h := webProbeLayer_preserves layers o
        { r with httpServices := o.detectHttp r.openPorts }
      exact ⟨h.1, h.2.1, h.2.2.1⟩
  · have h := webProbeLayer_preserves layers o r
    exact ⟨h.1, h.2.1, h.2.2.1⟩

/-! ## Concrete fixtures used by counterexamples and witnesses -/

/-- pi22 is an open-port record for port 22. -/
def pi22 : PortInfoM := { port := 22, state := "open" }

/-- pi25 is an open-port record for port 25. -/
def pi25 : PortInfoM := { port := 25, state := "open" }

/-- pi445 is an open-port record for port 445. -/
def pi445 : PortInfoM := { port := 445, state := "open" }

/-- hinfoStub is a stub HTTP service record. -/
def hinfoStub : HTTPInfoM := { url := "http://203.0.113.9:22/" }

/-- oTrivial is the oracle environment of a target with nothing open. -/
def oTrivial : ScanOracles :=
  { scanTarget := fun _ => [], detectHttp := fun _ => [], probeWeb := fun _ => [] }

/-- oC1 is an oracle environment whose preset sweep finds nothing and whose
full sweep finds port 22. -/
def oC1 : ScanOracles :=
  { scanTarget := fun ps => match ps with | none => [] | some _ => [pi22],
    detectHttp := fun _ => [], probeWeb := fun _ => [] }

/-- oThreePorts is an oracle environment whose preset sweep finds three
non-web ports and where no port answers HTTP. -/
def oThreePorts : ScanOracles :=
  { scanTarget := fun ps => match ps with | none => [pi22, pi25, pi445] | some _ => [],
    detectHttp := fun _ => [], probeWeb := fun _ => [] }

/-- cfgSmartOff is a configuration with smart scanning disabled. -/
def cfgSmartOff : ScanConfigM := { smartScanEnabled := false }

/-- oRaisingHttp is an oracle environment whose progress callback raises at
the HTTP-detection stage; the HTTP detector itself would report a service. -/
def oRaisingHttp : ScanOracles :=
  { scanTarget := fun _ => [pi22, pi25, pi445],
    detectHttp := fun _ => [hinfoStub], probeWeb := fun _ => [],
    progressCb := some (fun stage =>
      if stage = "HTTP服务检测" then .error "callback boom" else .ok ()) }

/-! ## Claim C1 -/

/-- C1: for a single-target scan with no explicit port list and smart
scanning engaged, when the preset sweep finds fewer open ports than
smart_scan_threshold the controller runs the full 1-65535 sweep and the
final open_ports equals the full sweep result (the preset findings are
replaced). -/
theorem C1_smart_escalation_full_sweep_replaces (cfg : ScanConfigM)
    (ip sid : String) (layers : List String) (o : ScanOracles)
    (hen : cfg.smartScanEnabled = true)
    (hcb : o.progressCb = none)
    (hl : "port_scan" ∈ layers)
    (hlt : ((o.scanTarget none).length : Int) < cfg.smartScanThreshold) :
    (scanAsyncWithProgress cfg ip none layers o sid).2 = true ∧
    (scanAsyncWithProgress cfg ip none layers o sid).1.openPorts =
      o.scanTarget (some fullPortRange) := by
  have hps : portScanLayer cfg none layers o (initScanResult ip none sid) =
      ({ initScanResult ip none sid with
          openPorts := o.scanTarget (some fullPortRange) }, true, false) := by
    unfold portScanLayer executeFullPortScan
    rw [hcb]
    simp only [callCb, if_pos hl]
    simp only [portsFalsy, if_pos hlt]
    simp
  constructor
  · unfold scanAsyncWithProgress
    rw [hps]
  · unfold scanAsyncWithProgress
    rw [hps]
    exact (httpDetectionLayer_preserves layers o _).2.2

/-- C1 witness: the theorem applied to a concrete environment in which the
preset sweep finds nothing and the full sweep finds port 22. -/
theorem C1_smart_escalation_witness :
    (scanAsyncWithProgress {} "192.0.2.10" none defaultLayers oC1 "scan-c1").2 = true ∧
    (scanAsyncWithProgress {} "192.0.2.10" none defaultLayers oC1 "scan-c1").1.openPorts =
      oC1.scanTarget (some fullPortRange) :=
  C1_smart_escalation_full_sweep_replaces {} "192.0.2.10" "scan-c1" defaultLayers oC1
    rfl rfl (by decide) (by decide)

/-! ## Claim C2 -/

/-- C2 counterexample: with smart_scan_enabled = false and no explicit port
list, the live controller path still runs the full sweep when the preset
count is below threshold — scan_async_with_progress never consults
smart_scan_enabled. -/
theorem C2_escalation_ignores_flag_counterexample :
    cfgSmartOff.smartScanEnabled = false ∧
    (scanAsyncWithProgress cfgSmartOff "198.51.100.7" none defaultLayers oTrivial
      "scan-c2").2 = true := by
  exact ⟨rfl, rfl⟩

/-- C2 amended: on the live controller path the full 1-65535 sweep runs
exactly when the port_scan layer is requested, the caller-supplied port
list is falsy (None or empty), and the preset sweep found fewer than
smart_scan_threshold open ports — independent of smart_scan_enabled. -/
theorem C2_amended_full_sweep_iff (cfg : ScanConfigM) (ip sid : String)
    (ports : Option (List Int)) (layers : List String) (o : ScanOracles)
    (hcb : o.progressCb = none) :
    (scanAsyncWithProgress cfg ip ports layers o sid).2 = true ↔
      ("port_scan" ∈ layers ∧ portsFalsy ports = true ∧
        ((o.scanTarget ports).length : Int) < cfg.smartScanThreshold) := by
  by_cases hl : "port_scan" ∈ layers
  · by_cases hpf : portsFalsy ports = true
    · by_cases hlt : ((o.scanTarget ports).length : Int) < cfg.smartScanThreshold
      · simp [scanAsyncWithProgress, portScanLayer, executeFullPortScan, callCb,
          hcb, hl, hpf, hlt]
      · simp [scanAsyncWithProgress, portScanLayer, callCb, hcb, hl, hpf, hlt]
    · simp [scanAsyncWithProgress, portScanLayer, callCb, hcb, hl, hpf]
  · simp [scanAsyncWithProgress, portScanLayer, callCb, hcb, hl]

/-- C2 witness: the amended equivalence applied to a concrete run with
smart scanning disabled. -/
theorem C2_amended_witness :
    (scanAsyncWithProgress cfgSmartOff "198.51.100.8" none defaultLayers oTrivial
      "scan-c2w").2 = true :=
  (C2_amended_full_sweep_iff cfgSmartOff "198.51.100.8" "scan-c2w" none defaultLayers
    oTrivial rfl).mpr ⟨by decide, rfl, by decide⟩

/-! ## Claim C3 -/

/-- C3 counterexample: a smart-mode scan (default configuration, no
explicit ports) whose preset sweep meets the threshold and in which no
port answers HTTP — the claim demands a full sweep, but the live path
skips it unconditionally. -/
theorem C3_no_web_check_counterexample :
    ¬ (((oThreePorts.scanTarget none).length : Int) <
        ({} : ScanConfigM).smartScanThreshold) ∧
    (scanAsyncWithProgress {} "203.0.113.5" none defaultLayers oThreePorts
      "scan-c3").1.httpServices = [] ∧
    (scanAsyncWithProgress {} "203.0.113.5" none defaultLayers oThreePorts
      "scan-c3").2 = false := by
  exact ⟨by decide, rfl, rfl⟩

/-- C3 amended: when the preset sweep finds at least smart_scan_threshold
open ports, the live controller path never runs the full sweep and keeps
the preset findings; the web-check-gated escalation exists only in the
uncalled _execute_smart_scan path. -/
theorem C3_amended_no_sweep_when_threshold_met (cfg : ScanConfigM)
    (ip sid : String) (ports : Option (List Int)) (layers : List String)
    (o : ScanOracles)
    (hcb : o.progressCb = none) (hl : "port_scan" ∈ layers)
    (hge : cfg.smartScanThreshold ≤ ((o.scanTarget ports).length : Int)) :
    (scanAsyncWithProgress cfg ip ports layers o sid).2 = false ∧
    (scanAsyncWithProgress cfg ip ports layers o sid).1.openPorts =
      o.scanTarget ports := by
  have hps : portScanLayer cfg ports layers o (initScanResult ip ports sid) =
      ({ initScanResult ip ports sid with openPorts := o.scanTarget ports },
        false, false) := by
    unfold portScanLayer
    rw [hcb]
    simp only [callCb, if_pos hl]
    by_cases hpf : portsFalsy ports = true
    · rw [if_pos hpf, if_neg (not_lt.mpr hge)]
    · rw [if_neg hpf]
  constructor
  · unfold scanAsyncWithProgress
    rw [hps]
  · unfold scanAsyncWithProgress
    rw [hps]
    exact (httpDetectionLayer_preserves layers o _).2.2

/-- C3 witness: the amended statement applied to a concrete run whose
preset sweep finds exactly three ports against the default threshold 3. -/
theorem C3_amended_witness :
    (scanAsyncWithProgress {} "203.0.113.6" none defaultLayers oThreePorts
      "scan-c3w").2 = false ∧
    (scanAsyncWithProgress {} "203.0.113.6" none defaultLayers oThreePorts
      "scan-c3w").1.openPorts = oThreePorts.scanTarget none :=
  C3_amended_no_sweep_when_threshold_met {} "203.0.113.6" "scan-c3w" none
    defaultLayers oThreePorts rfl (by decide) (by decide)

/-! ## Claim C5 -/

/-- C5 counterexample: a run in which the progress callback raises during
the HTTP-detection stage — the exception is caught and the partial port
findings are kept, but the returned result is still pending with no error
message (the claim demands status failed with error_message populated),
and the HTTP layer was indeed aborted although the detector would have
reported a service. -/
theorem C5_terminal_status_counterexample :
    (scanAsyncWithProgress {} "203.0.113.9" none defaultLayers oRaisingHttp
      "scan-c5").1.status = ScanStatusM.pending ∧
    (scanAsyncWithProgress {} "203.0.113.9" none defaultLayers oRaisingHttp
      "scan-c5").1.errorMessage = none ∧
    (scanAsyncWithProgress {} "203.0.113.9" none defaultLayers oRaisingHttp
      "scan-c5").1.openPorts = [pi22, pi25, pi445] ∧
    (scanAsyncWithProgress {} "203.0.113.9" none defaultLayers oRaisingHttp
      "scan-c5").1.httpServices = [] := by
  refine ⟨?_, ?_, ?_, ?_⟩ <;> rfl

/-- C5 amended: scan_async_with_progress never raises (the embedding is a
total function: every exception realisable in the try block is caught at
the per-target boundary) and preserves the findings accumulated so far,
but on every path — clean or exceptional — the returned ScanResult still
has its initial pending status and an unset error_message;
mark_completed and mark_failed are not invoked on this path. -/
theorem C5_amended_result_stays_pending (cfg : ScanConfigM) (ip sid : String)
    (ports : Option (List Int)) (layers : List String) (o : ScanOracles) :
    (scanAsyncWithProgress cfg ip ports layers o sid).1.status =
      ScanStatusM.pending ∧
    (scanAsyncWithProgress cfg ip ports layers o sid).1.errorMessage = none := by
  unfold scanAsyncWithProgress
  rcases hps : portScanLayer cfg ports layers o (initScanResult ip ports sid)
    with ⟨r, ran, b⟩
  have h1 := portScanLayer_preserves cfg ports layers o (initScanResult ip ports sid)
  rw [hps] at h1
  cases b
  · exact ⟨(httpDetectionLayer_preserves layers o r).1.trans h1.1,
      (httpDetectionLayer_preserves layers o r).2.1.trans h1.2⟩
  · exact ⟨h1.1, h1.2⟩

/-! ## Claim C4 -/

/-- C4 counterexample: the helper ran and exited 1 with perfectly
parseable output naming ports 22 and 80, and the in-process fallback
would report ports 22 and 80, yet _rustscan_ports returns the empty
list — no fallback happens on a non-zero exit. -/
theorem C4_nonzero_exit_counterexample :
    rustscanPorts (.ran 1 ("1.2.3.4 -> [22,80]".toList)) [22, 80] = [] := rfl

/-- C4 amended: layer-1 discovery falls back to the in-process connect
scan exactly when the helper binary is absent (FileNotFoundError) or its
invocation raises some other exception; when the helper runs and exits
non-zero the function returns an empty list without falling back, and
when it exits zero the (possibly empty) parse of its stdout is returned
as-is, also without falling back. -/
theorem C4_amended_fallback_only_on_exception :
    (∀ sock : List Int, rustscanPorts .notFound sock = sock) ∧
    (∀ (m : String) (sock : List Int), rustscanPorts (.raisedOther m) sock = sock) ∧
    (∀ (rc : Int) (out : List Char) (sock : List Int), rc ≠ 0 →
      rustscanPorts (.ran rc out) sock = []) ∧
    (∀ (out : List Char) (sock : List Int),
      rustscanPorts (.ran 0 out) sock = parseRustscanGreppableOutput out) := by
  refine ⟨fun _ => rfl, fun _ _ => rfl, ?_, ?_⟩
  · intro rc out sock hrc
    simp [rustscanPorts, hrc]
  · intro out sock
    simp [rustscanPorts]

/-- C4 witness: the amended statement applied to a helper run that exits
with code 2 while the fallback scanner would have found ports 5 and 7. -/
theorem C4_amended_witness :
    rustscanPorts (.ran 2 []) [5, 7] = [] :=
  C4_amended_fallback_only_on_exception.2.2.1 2 [] [5, 7] (by decide)

/-! ## Claim C6 -/

/-- envNoBanner is a banner environment in which no port sends a banner. -/
def envNoBanner : Int → Option String := fun _ => none

theorem range_map_getD (l : List Int) :
    (List.range l.length).map (fun i => l.getD i 0) = l := by
  induction l with
  | nil => rfl
  | cons a t ih =>
    rw [List.length_cons, List.range_succ_eq_map, List.map_cons, List.map_map]
    simp only [Function.comp_def, List.getD_cons_zero, List.getD_cons_succ]
    rw [ih]

theorem grabBannersAux_map_port (env : Int → Option String) (ports : List Int)
    (order : List Nat) (i : Nat)
    (hok : ∀ p ∈ ports, 1 ≤ p ∧ p ≤ 65535)
    (hbound : ∀ ti ∈ order, ti < ports.length) :
    (grabBannersAux env ports order i).map PortInfoM.port =
      order.map (fun ti => ports.getD ti 0) := by
  revert hbound
  induction order generalizing i with
  | nil => intro _; rfl
  | cons ti rest ih =>
    intro hbound
    have hti : ti < ports.length := hbound ti (List.mem_cons_self ti rest)
    have hmem : ports.getD ti 0 ∈ ports := by
      rw [List.getD_eq_getElem ports 0 hti]
      exact List.getElem_mem hti
    have hpp := hok _ hmem
    simp only [grabBannersAux, grabSingleBanner, if_pos hpp, List.map_cons]
    exact congrArg (ports.getD ti 0 :: ·)
      (ih (i + 1) (fun t ht => hbound t (List.mem_cons_of_mem _ ht)))

/-- C6 counterexample: two discovered ports 22 and 80 whose banner grabs
complete in the order 80-then-22 produce open_ports listed as 80, 22 — a
reachable result list that is not ascending, because _grab_banners appends
in completion order and no sort is applied at layer end. -/
theorem C6_completion_order_counterexample :
    ((grabBanners envNoBanner [22, 80] [1, 0]).map PortInfoM.port) = [80, 22] ∧
    ¬ List.Sorted (· ≤ ·)
      ((grabBanners envNoBanner [22, 80] [1, 0]).map PortInfoM.port) := by
  constructor
  · rfl
  · decide

/-- C6 amended: open_ports lists the banner-grab results in completion
order with no final sort, so ascending order is not guaranteed; what does
hold is that for any completion schedule (a permutation of the task
indices) in which every grab succeeds (every discovered port is in
1..65535, so no pydantic validation error occurs), the ports of the
result are a permutation of the discovered ports — one entry per
discovered port, hence unique on port whenever discovery was. -/
theorem C6_amended_open_ports_perm (env : Int → Option String)
    (ports : List Int) (order : List Nat)
    (hperm : order.Perm (List.range ports.length))
    (hok : ∀ p ∈ ports, 1 ≤ p ∧ p ≤ 65535) :
    ((grabBanners env ports order).map PortInfoM.port).Perm ports := by
  have hbound : ∀ ti ∈ order, ti < ports.length := by
    intro ti hti
    exact List.mem_range.mp (hperm.mem_iff.mp hti)
  unfold grabBanners
  rw [grabBannersAux_map_port env ports order 0 hok hbound]
  have h := hperm.map (fun ti => ports.getD ti 0)
  rwa [range_map_getD] at h

/-- C6 witness: the amended statement applied to ports 22 and 80 with the
completion schedule that finishes the second task first. -/
theorem C6_amended_witness :
    ((grabBanners envNoBanner [22, 80] [1, 0]).map PortInfoM.port).Perm [22, 80] :=
  C6_amended_open_ports_perm envNoBanner [22, 80] [1, 0] (by decide) (by decide)

/-! ## Claim C7 -/

/-- C7: the directory prober keeps a response exactly when its status code
is one of 200, 201, 301, 302, 401, 403, 500, 503 and, whenever the
Content-Length header is present and parses as an integer, its value lies
between 50 and 1048576; a parseable value outside those bounds drops the
response even at status 200, while an absent or unparseable header leaves
the decision to the status alone. -/
theorem C7_meaningful_response_iff (status : Int) (cl : Option (List Char)) :
    isMeaningfulResponse status cl = true ↔
      (status ∈ meaningfulCodes ∧
        ∀ s, cl = some s → ∀ v, pyParseInt s = some v →
          50 ≤ v ∧ v ≤ 1048576) := by
  unfold isMeaningfulResponse
  by_cases hst : status ∈ meaningfulCodes
  · rw [if_neg (not_not_intro hst)]
    cases cl with
    | none => simp [hst]
    | some s =>
      dsimp only
      by_cases hse : s.isEmpty = true
      · rw [if_pos hse]
        have hs0 : s = [] := List.isEmpty_iff.mp hse
        subst hs0
        constructor
        · intro _
          refine ⟨hst, ?_⟩
          intro s' hs' v hv
          injection hs' with h
          subst h
          rw [show pyParseInt ([] : List Char) = none from rfl] at hv
          cases hv
        · intro _
          rfl
      · rw [if_neg hse]
        cases hv : pyParseInt s with
        | none =>
          constructor
          · intro _
            refine ⟨hst, ?_⟩
            intro s' hs' v hv'
            injection hs' with h
            subst h
            rw [hv] at hv'
            cases hv'
          · intro _
            rfl
        | some v =>
          show (if v < 50 ∨ v > 1048576 then false else true) = true ↔ _
          by_cases hr : v < 50 ∨ v > 1048576
          · rw [if_pos hr]
            constructor
            · intro h
              cases h
            · rintro ⟨-, hall⟩
              obtain ⟨hb1, hb2⟩ := hall s rfl v hv
              exfalso
              omega
          · rw [if_neg hr]
            constructor
            · intro _
              refine ⟨hst, ?_⟩
              intro s' hs' v' hv'
              injection hs' with h
              subst h
              rw [hv] at hv'
              injection hv' with h'
              subst h'
              omega
            · intro _
              rfl
  · rw [if_pos hst]
    simp [hst]

/-- C7 witness: the characterisation applied to a kept response with
status 200 and no Content-Length header. -/
theorem C7_meaningful_response_witness :
    isMeaningfulResponse 200 none = true :=
  (C7_meaningful_response_iff 200 none).mpr
    ⟨by decide, by intro s hs v hv; cases hs⟩

/-! ## Claim C8 -/

/-- resp301 is a meaningful redirect response with no Content-Length. -/
def resp301 : DirResponse := { statusCode := 301 }

/-- resp200hello is a status-200 response whose body carries no admin
markers at all. -/
def resp200hello : DirResponse := { statusCode := 200, body := some "hello" }

/-- C8 counterexample: a kept 301 response for the path /admin — the path
triggers the admin keyword set, yet the resulting DirectoryInfo has
is_admin = false, because _scan_single_directory consults
_is_admin_interface only for status-200 responses. -/
theorem C8_non200_admin_path_counterexample :
    pathHasAdminKeyword "/admin" = true ∧
    scanSingleDirectory "/admin" (some resp301) =
      some { path := "/admin", statusCode := 301 } := by
  constructor
  · decide
  · rfl

/-- C8 amended: for a kept directory response, the admin keyword in the
path forces is_admin = true regardless of body contents only when the
status code is 200 and the body decodes; kept non-200 responses always
carry is_admin = false. -/
theorem C8_amended_admin_path_forces_flag (path : String) (r : DirResponse)
    (b : String) (d : DirectoryInfoM)
    (h200 : r.statusCode = 200) (hb : r.body = some b)
    (hkeep : scanSingleDirectory path (some r) = some d)
    (hkw : pathHasAdminKeyword path = true) :
    d.is_admin = true := by
  unfold scanSingleDirectory at hkeep
  dsimp only at hkeep
  by_cases hm : isMeaningfulResponse r.statusCode r.contentLengthHeader = true
  · rw [if_pos hm, if_pos h200, hb] at hkeep
    injection hkeep with hd
    rw [← hd]
    show isAdminInterface b path = true
    simp [isAdminInterface, hkw]
  · rw [if_neg hm] at hkeep
    cases hkeep

/-- C8 witness: the amended statement applied to a 200 response for /admin
whose body contains no admin markers. -/
theorem C8_amended_witness :
    ({ path := "/admin", statusCode := 200, is_admin := true } : DirectoryInfoM).is_admin
      = true :=
  C8_amended_admin_path_forces_flag "/admin" resp200hello "hello" _ rfl rfl
    (by decide) (by decide)

/-! ## Claim C9 -/

/-- p3000 is an open port 3000 with no banner and no service label; 3000
is both in the default web_ports configuration and in the claimed special
port list. -/
def p3000 : PortInfoM := { port := 3000, state := "open" }

/-- reNone is a regex oracle that never matches; it is irrelevant here
because candidate scoring consults the matcher only for truthy banners. -/
def reNone : String → String → Bool := fun _ _ => false

theorem applyDetectionRule_no_banner (reM : String → String → Bool)
    (p : PortInfoM) (r : HTTPDetectionRuleM)
    (hb : bannerTruthy p.banner = false) :
    applyDetectionRule reM p r =
      (if p.port ∈ r.portHints then (1 : ℚ)/10 else 0) := by
  unfold applyDetectionRule
  cases hpb : p.banner with
  | none => simp
  | some s =>
    rw [hpb] at hb
    have hse : s.isEmpty = true := by
      cases h : s.isEmpty
      · rw [bannerTruthy, h] at hb
        cases hb
      · rfl
    simp [hse]

theorem candidateScore_no_banner_le (reM : String → String → Bool)
    (p : PortInfoM) (hb : bannerTruthy p.banner = false)
    (hs : p.service ∉ httpServiceLabels) :
    candidateScore reM p ≤ 2/10 := by
  have harule : ∀ r, applyDetectionRule reM p r =
      (if p.port ∈ r.portHints then (1 : ℚ)/10 else 0) :=
    fun r => applyDetectionRule_no_banner reM p r hb
  unfold candidateScore
  rw [if_neg hs]
  simp only [detectionRules, List.foldl, harule]
  by_cases h1 : p.port ∈ ([80, 443, 8080, 8443] : List Int) <;>
    by_cases h2 : p.port ∈ ([8080, 8443, 9080, 9443] : List Int) <;>
      by_cases h3 : p.port ∈ ([3000, 4000, 5000, 8000, 8081, 8082, 9000, 9090] : List Int) <;>
        by_cases h4 : p.port ∈ ([80, 443] : List Int) <;>
          first
            | (exfalso; simp at h1 h2 h3 h4; omega)
            | (simp only [h1, h2, h3, h4, if_true, if_false]; norm_num)

/-- C9 counterexample: port 3000 — a member of the default web_ports list
and of the claimed non-standard port set — carrying no banner and no
service label is not selected as an HTTP candidate: its combined score is
0.1, below the 0.3 threshold, and _identify_http_candidates never
consults web_ports at all. -/
theorem C9_webport_not_candidate_counterexample :
    (3000 : Int) ∈ ({} : ScanConfigM).webPorts ∧
    p3000.banner = none ∧ p3000.service = none ∧
    identifyHttpCandidates reNone [p3000] = [] := by
  refine ⟨by decide, rfl, rfl, ?_⟩
  have hq := candidateScore_no_banner_le reNone p3000 rfl (by decide)
  unfold identifyHttpCandidates
  rw [if_neg (not_le.mpr (lt_of_le_of_lt hq (by norm_num)))]
  rfl

/-- C9 amended: an open port whose banner is falsy (absent or empty) and
whose service label is not http-ish is never selected as an HTTP
candidate, whatever port number it has: port hints contribute at most 0.1
twice, so the combined score is at most 0.2, below the 0.3 threshold;
membership in the configured web_ports plays no role in candidate
selection. -/
theorem C9_amended_bannerless_never_candidate (reM : String → String → Bool)
    (p : PortInfoM) (hb : bannerTruthy p.banner = false)
    (hs : p.service ∉ httpServiceLabels) :
    identifyHttpCandidates reM [p] = [] := by
  have hq := candidateScore_no_banner_le reM p hb hs
  unfold identifyHttpCandidates
  rw [if_neg (not_le.mpr (lt_of_le_of_lt hq (by norm_num)))]
  rfl

/-- C9 witness: the amended statement applied to the bannerless port 22. -/
theorem C9_amended_witness :
    identifyHttpCandidates reNone [pi22] = [] :=
  C9_amended_bannerless_never_candidate reNone pi22 rfl (by decide)

/-! ## Claim C10 -/

/-- C10: the greppable-output parser is total (the embedding is a plain
function: every ValueError and IndexError site in the source is guarded
by the try/except, which the embedding reflects), its result is strictly
ascending and duplicate-free on every input, lines lacking the
arrow-and-brackets shape contribute nothing, and every returned port is
the successful int() of some comma entry. -/
theorem C10_parser_sorted_nodup_skips (output : List Char) :
    (parseRustscanGreppableOutput output).Sorted (· < ·) ∧
    (parseRustscanGreppableOutput output).Nodup ∧
    (∀ line : List Char, lineShape (pyStrip line) = false → parseLine line = []) ∧
    (∀ entries : List (List Char), ∀ n ∈ parseEntries entries,
      ∃ e ∈ entries, pyParseInt (pyStrip e) = some n) := by
  refine ⟨pySortedSet_sorted _, pySortedSet_nodup _, ?_, ?_⟩
  · intro line hline
    simp [parseLine, hline]
  · intro entries
    induction entries with
    | nil =>
      intro n hn
      cases hn
    | cons e rest ih =>
      intro n hn
      unfold parseEntries at hn
      by_cases hse : (pyStrip e).isEmpty = true
      · rw [if_pos hse] at hn
        obtain ⟨e', he', hp⟩ := ih n hn
        exact ⟨e', List.mem_cons_of_mem _ he', hp⟩
      · rw [if_neg hse] at hn
        cases hv : pyParseInt (pyStrip e) with
        | none =>
          rw [hv] at hn
          cases hn
        | some m =>
          rw [hv] at hn
          rcases List.mem_cons.mp hn with rfl | hn'
          · exact ⟨e, List.mem_cons_self _ _, hv⟩
          · obtain ⟨e', he', hp⟩ := ih n hn'
            exact ⟨e', List.mem_cons_of_mem _ he', hp⟩

/-- C10 witness: the parser guarantees applied to concrete data — a line
with no arrow-bracket shape parses to nothing, and port 22 in the output
of parseEntries is traced back to the entry that parsed to it. -/
theorem C10_parser_witness :
    parseLine ("no arrow here".toList) = [] ∧
    ∃ e ∈ [("22".toList), ("9a".toList)], pyParseInt (pyStrip e) = some 22 := by
  constructor
  · exact (C10_parser_sorted_nodup_skips []).2.2.1 ("no arrow here".toList) (by decide)
  · exact (C10_parser_sorted_nodup_skips []).2.2.2 [("22".toList), ("9a".toList)] 22
      (by decide)

end PortScannerModel
